import Mathlib

/-!
Shallow embedding of the wasmtime waPC engine provider (src/lib.rs).

The wasmtime engine and the wapc host framework are external crates; they
are modelled abstractly:
  * a compiled wasm module is a `WasmModule`: its declared imports and its
    exports (each export is either a callable function or a non-function);
  * the engine (wasmtime's `Engine::default()` together with `Module::new`
    and `Instance::new`) is an `Engine` record with a compile function on
    byte buffers and an instantiation-success predicate;
  * the host handle (`Arc<ModuleState>`) is an opaque identifier.
Rust panics (`unwrap`, `panic!`-style divergence, `unreachable`-style
divergence) are modelled as `RunError.panic`, distinct from typed
`Box<dyn Error>` failures which are `RunError.err`.  `debug_assert!` is a
no-op in release builds and is modelled as a no-op.  Calls to the `log`
crate and the milestones of an instantiation are recorded in an event
trace so that ordering properties (what happens before what) are statable.
-/

/-- Opaque stand-in for the host side `Arc<ModuleState>`. -/
structure ModuleState where
  id : Nat
deriving DecidableEq

/-- Opaque stand-in for `wasmtime::Store`. -/
structure Store where
  id : Nat
deriving DecidableEq

/-- Opaque stand-in for `wapc::WasiParams`. -/
structure WasiParams where
  id : Nat
deriving DecidableEq

/-- A wasm value as far as this provider observes it: the provider only
ever inspects results through `.i32()`. -/
inductive WasmVal where
  | i32 (n : Int)
  | other
deriving DecidableEq

/-- The observable behaviour of a wasm function: calling it with arguments
either returns result values or traps with a message. -/
structure WasmFunc where
  call : List WasmVal → Except String (List WasmVal)

/-- An export of an instantiated module: a function or something else
(global, memory, table). -/
inductive ExportDef where
  | func (f : WasmFunc)
  | nonFunc

/-- The type of a declared import, as wasmtime reports it. -/
inductive ExternType where
  | func
  | global
  | memory
  | table
deriving DecidableEq

/-- One declared import of a module: its namespace (`imp.module()`), its
name (`imp.name()`) and its extern type (`imp.ty()`). -/
structure ImportDecl where
  module : String
  name : String
  ty : ExternType
deriving DecidableEq

/-- A compiled module: its declared imports in the order the engine
enumerates them, and its exports keyed by name. -/
structure WasmModule where
  imports : List ImportDecl
  exports : List (String × ExportDef)

/-- An instantiated module.  Per-call fresh instances carry no state of
their own beyond the module they were created from. -/
structure Instance where
  module : WasmModule

/-- The nine host callback roles of the bridging function set. -/
inductive HostFuncRole where
  | consoleLog
  | hostCall
  | guestRequest
  | hostResponse
  | hostResponseLen
  | guestResponse
  | guestError
  | hostError
  | hostErrorLen
deriving DecidableEq

/-- A host-side binding handed to `Instance::new`: a host callback closed
over the host handle. -/
inductive Extern where
  | hostFunc (role : HostFuncRole) (host : ModuleState)
deriving DecidableEq

/-- The external engine: compiling bytes may fail (`Module::new` returns
`Err`), and `Instance::new` on a compiled module and a positional import
list may fail (import count/type mismatch). -/
structure Engine where
  compile : List Nat → Option WasmModule
  instantiateOk : WasmModule → List Extern → Bool

/-- How a provider operation ends: a typed `Box<dyn Error>` failure or a
Rust panic, kept apart because the spec distinguishes them. -/
inductive RunError where
  | err (msg : String)
  | panic (msg : String)
deriving DecidableEq

/-- Result of running a fallible provider operation. -/
abbrev RunResult (α : Type) := Except RunError α

/-- Observable milestones and log output of the provider, in order. -/
inductive Event where
  | logError (msg : String)
  | logInfo (msg : String)
  | instanceAttempted
  | starterInvoked (name : String)
  | guestCallInvoked
deriving DecidableEq

namespace WapcFunctions

/-- Export name of the guest entry point (`WapcFunctions::GUEST_CALL`). -/
def GUEST_CALL : String := "__guest_call"

def HOST_CONSOLE_LOG : String := "__console_log"

def HOST_CALL : String := "__host_call"

def GUEST_REQUEST_FN : String := "__guest_request"

def HOST_RESPONSE_FN : String := "__host_response"

def HOST_RESPONSE_LEN_FN : String := "__host_response_len"

def GUEST_RESPONSE_FN : String := "__guest_response"

def GUEST_ERROR_FN : String := "__guest_error"

def HOST_ERROR_FN : String := "__host_error"

def HOST_ERROR_LEN_FN : String := "__host_error_len"

/-- The fixed ordered list of recognised starter export names
(`WapcFunctions::REQUIRED_STARTS` of the wapc crate). -/
def REQUIRED_STARTS : List String := ["_start", "wapc_init", "wascc_init"]

end WapcFunctions

/-- The single recognised import namespace (`wapc::HOST_NAMESPACE`). -/
def HOST_NAMESPACE : String := "wapc"

/-- Lookup of an export by name on an instance (`instance.get_export`). -/
def Instance.get_export (inst : Instance) (name : String) : Option ExportDef :=
  inst.module.exports.lookup name

/-- Lookup of a function export by name (`instance.get_func`): present and
a function. -/
def Instance.get_func (inst : Instance) (name : String) : Option WasmFunc :=
  match inst.get_export name with
  | some (ExportDef.func f) => some f
  | _ => none

/-- The provider struct `WasmtimeEngineProvider`: the host handle is
present only after `init`, and the raw module bytes may be replaced by a
hot swap. -/
structure WasmtimeEngineProvider where
  host : Option ModuleState
  wasidata : Option WasiParams
  modbytes : List Nat

/-- Constructor `WasmtimeEngineProvider::new`. -/
def WasmtimeEngineProvider.new (buf : List Nat) (wasi : Option WasiParams) :
    WasmtimeEngineProvider :=
  { host := none, modbytes := buf, wasidata := wasi }

/-- Predicate `initialized`: the host handle has been stored. -/
def WasmtimeEngineProvider.initialized (p : WasmtimeEngineProvider) : Bool :=
  p.host.isSome

/-- Operation `init`: stores the host handle and returns `Ok(())`.  The
`debug_assert!` on entry is a release-build no-op. -/
def WasmtimeEngineProvider.init (p : WasmtimeEngineProvider) (host : ModuleState) :
    RunResult Unit × WasmtimeEngineProvider :=
  (Except.ok (), { p with host := some host })

/-- Operation `replace` (hot swap): overwrites the stored bytes, logs, and
returns `Ok(())`.  The `debug_assert!` on entry is a release-build no-op. -/
def WasmtimeEngineProvider.replace (p : WasmtimeEngineProvider) (module : List Nat) :
    RunResult Unit × WasmtimeEngineProvider × List Event :=
  (Except.ok (), { p with modbytes := module },
    [Event.logInfo
      ("HOT SWAP - Replacing existing WebAssembly module with new buffer, "
        ++ toString module.length ++ " bytes")])

/-- Name-to-role resolution `callback_for_import`: each of the nine fixed
bridging names yields the corresponding host callback; any other name is
an unreachable-code divergence, modelled as a panic. -/
def callback_for_import (importName : String) (host : ModuleState) (st : Store) :
    RunResult Extern :=
  if importName = WapcFunctions.HOST_CONSOLE_LOG then
    Except.ok (Extern.hostFunc HostFuncRole.consoleLog host)
  else if importName = WapcFunctions.HOST_CALL then
    Except.ok (Extern.hostFunc HostFuncRole.hostCall host)
  else if importName = WapcFunctions.GUEST_REQUEST_FN then
    Except.ok (Extern.hostFunc HostFuncRole.guestRequest host)
  else if importName = WapcFunctions.HOST_RESPONSE_FN then
    Except.ok (Extern.hostFunc HostFuncRole.hostResponse host)
  else if importName = WapcFunctions.HOST_RESPONSE_LEN_FN then
    Except.ok (Extern.hostFunc HostFuncRole.hostResponseLen host)
  else if importName = WapcFunctions.GUEST_RESPONSE_FN then
    Except.ok (Extern.hostFunc HostFuncRole.guestResponse host)
  else if importName = WapcFunctions.GUEST_ERROR_FN then
    Except.ok (Extern.hostFunc HostFuncRole.guestError host)
  else if importName = WapcFunctions.HOST_ERROR_FN then
    Except.ok (Extern.hostFunc HostFuncRole.hostError host)
  else if importName = WapcFunctions.HOST_ERROR_LEN_FN then
    Except.ok (Extern.hostFunc HostFuncRole.hostErrorLen host)
  else
    Except.error (RunError.panic "internal error: entered unreachable code")

/-- The body of `arrange_imports` on the enumerated import list: a
filter-map in enumeration order.  Function imports under the host
namespace resolve through `callback_for_import`; function imports under
any other namespace diverge with a panic; non-function imports are
skipped. -/
def arrange_imports_list (host : ModuleState) (st : Store) :
    List ImportDecl → RunResult (List Extern)
  | [] => Except.ok []
  | imp :: rest =>
    match imp.ty with
    | ExternType.func =>
      if imp.module = HOST_NAMESPACE then
        match callback_for_import imp.name host st with
        | Except.error e => Except.error e
        | Except.ok ext =>
          match arrange_imports_list host st rest with
          | Except.error e => Except.error e
          | Except.ok exts => Except.ok (ext :: exts)
      else
        Except.error (RunError.panic ("import module was not found: " ++ imp.module))
    | _ => arrange_imports_list host st rest

/-- Import binder `arrange_imports`: runs the filter-map over the module's
imports in the order the engine enumerates them. -/
def arrange_imports (module : WasmModule) (host : ModuleState) (st : Store) :
    RunResult (List Extern) :=
  arrange_imports_list host st module.imports

/-- Bootstrap loop body: for each starter name, a present export is
converted to a function (`into_func().unwrap()`, a panic when the export
is not a function) and called; a trap propagates as a typed error. -/
def run_starters (inst : Instance) : List String → RunResult Unit × List Event
  | [] => (Except.ok (), [])
  | s :: rest =>
    match inst.get_export s with
    | none => run_starters inst rest
    | some ExportDef.nonFunc =>
      (Except.error (RunError.panic "called Option::unwrap on a None value"), [])
    | some (ExportDef.func f) =>
      match f.call [] with
      | Except.error e => (Except.error (RunError.err e), [Event.starterInvoked s])
      | Except.ok _ =>
        match run_starters inst rest with
        | (r, evs) => (r, Event.starterInvoked s :: evs)

/-- The bootstrap function of the source (the source names it after the
verb for setting up; that word is a Lean keyword, hence `bootstrap`
here): invokes every present starter export from `REQUIRED_STARTS`, in
that fixed order. -/
def bootstrap (inst : Instance) : RunResult Unit × List Event :=
  run_starters inst WapcFunctions.REQUIRED_STARTS

/-- Method `instantiate`: unwraps the host handle, compiles the stored
bytes (`Module::new(..).unwrap()`, a panic on invalid bytes), arranges the
imports, creates the instance (`Instance::new(..).unwrap()`, a panic when
the engine rejects the bindings) and runs the bootstrap exports. -/
def WasmtimeEngineProvider.instantiate (p : WasmtimeEngineProvider) (eng : Engine) :
    RunResult Instance × List Event :=
  match p.host with
  | none => (Except.error (RunError.panic "called Option::unwrap on a None value"), [])
  | some host =>
    match eng.compile p.modbytes with
    | none => (Except.error (RunError.panic "called Result::unwrap on an Err value"), [])
    | some m =>
      match arrange_imports m host (Store.mk 0) with
      | Except.error e => (Except.error e, [])
      | Except.ok imports =>
        if eng.instantiateOk m imports then
          let inst := Instance.mk m
          match bootstrap inst with
          | (Except.error e, evs) => (Except.error e, Event.instanceAttempted :: evs)
          | (Except.ok _, evs) => (Except.ok inst, Event.instanceAttempted :: evs)
        else
          (Except.error (RunError.panic "called Result::unwrap on an Err value"),
            [Event.instanceAttempted])

/-- Entry-point lookup `guest_call_fn`: the function export named
`__guest_call`, or a typed error when the module does not export it. -/
def guest_call_fn (inst : Instance) : RunResult WasmFunc :=
  match inst.get_func WapcFunctions.GUEST_CALL with
  | some f => Except.ok f
  | none =>
    Except.error (RunError.err "Guest module did not export __guest_call function!")

/-- Expansion of the `call!` macro: invoke the function; on success unwrap
the first result as an i32 (a panic when absent or not an i32); on failure
log the error and yield the sentinel `0`. -/
def call_excl (f : WasmFunc) (p1 p2 : Int) : RunResult Int × List Event :=
  match f.call [WasmVal.i32 p1, WasmVal.i32 p2] with
  | Except.ok results =>
    match results.head? with
    | some (WasmVal.i32 n) => (Except.ok n, [])
    | some WasmVal.other =>
      (Except.error (RunError.panic "called Option::unwrap on a None value"), [])
    | none =>
      (Except.error (RunError.panic "index out of bounds"), [])
  | Except.error e =>
    (Except.ok 0, [Event.logError ("Failure invoking guest module handler: " ++ e)])

/-- Method `call`: instantiate, locate the entry point, invoke it through
the `call!` expansion, and wrap the resulting i32 in `Ok`. -/
def WasmtimeEngineProvider.call (p : WasmtimeEngineProvider) (eng : Engine)
    (op_length msg_length : Int) : RunResult Int × List Event :=
  match p.instantiate eng with
  | (Except.error e, evs) => (Except.error e, evs)
  | (Except.ok inst, evs) =>
    match guest_call_fn inst with
    | Except.error e => (Except.error e, evs)
    | Except.ok f =>
      match call_excl f op_length msg_length with
      | (r, evs2) => (r, evs ++ Event.guestCallInvoked :: evs2)

/-! Concrete fixtures used by the witness theorems. -/

/-- A concrete host handle. -/
def host0 : ModuleState := ⟨0⟩

/-- A guest function that always traps. -/
def trapFunc : WasmFunc := ⟨fun _ => Except.error "wasm trap: unreachable"⟩

/-- A guest function that returns the i32 result 42. -/
def okFunc : WasmFunc := ⟨fun _ => Except.ok [WasmVal.i32 42]⟩

/-- A guest function that returns the i32 result 7. -/
def okFunc7 : WasmFunc := ⟨fun _ => Except.ok [WasmVal.i32 7]⟩

/-- A module whose entry point traps. -/
def modTrap : WasmModule :=
  { imports := [], exports := [(WapcFunctions.GUEST_CALL, ExportDef.func trapFunc)] }

/-- A module with no exports at all, in particular no entry point. -/
def modNoEntry : WasmModule := { imports := [], exports := [] }

/-- A module whose entry point returns 42. -/
def modOk : WasmModule :=
  { imports := [], exports := [(WapcFunctions.GUEST_CALL, ExportDef.func okFunc)] }

/-- A module whose entry point returns 7, with one starter export. -/
def modStarter : WasmModule :=
  { imports := [],
    exports := [("wapc_init", ExportDef.func okFunc),
                (WapcFunctions.GUEST_CALL, ExportDef.func okFunc7)] }

/-- The nine import names `callback_for_import` resolves, in the order of
its match arms. -/
def BRIDGE_NAMES : List String :=
  [WapcFunctions.HOST_CONSOLE_LOG, WapcFunctions.HOST_CALL,
   WapcFunctions.GUEST_REQUEST_FN, WapcFunctions.HOST_RESPONSE_FN,
   WapcFunctions.HOST_RESPONSE_LEN_FN, WapcFunctions.GUEST_RESPONSE_FN,
   WapcFunctions.GUEST_ERROR_FN, WapcFunctions.HOST_ERROR_FN,
   WapcFunctions.HOST_ERROR_LEN_FN]

/-- A function import declared under a non-host namespace. -/
def badNsImport : ImportDecl :=
  { module := "wasi_snapshot_preview1", name := "fd_write", ty := ExternType.func }

/-- A module declaring one function import under a foreign namespace. -/
def modBadNs : WasmModule := { imports := [badNsImport], exports := [] }

/-- Imports of a well-formed module: two recognised host-namespace
function imports around one non-function import. -/
def goodImports : List ImportDecl :=
  [⟨HOST_NAMESPACE, WapcFunctions.HOST_CALL, ExternType.func⟩,
   ⟨"env", "memory", ExternType.memory⟩,
   ⟨HOST_NAMESPACE, WapcFunctions.GUEST_REQUEST_FN, ExternType.func⟩]

/-- A module declaring only recognised host-namespace function imports
(plus a skipped memory import). -/
def modGoodImports : WasmModule :=
  { imports := goodImports,
    exports := [(WapcFunctions.GUEST_CALL, ExportDef.func okFunc)] }

/-- A concrete engine: byte buffer [1] compiles to `modTrap`, [2] to
`modNoEntry`, [3] to `modOk`, [4] to `modStarter`, [5] to `modBadNs`,
[6] to `modGoodImports`; anything else is invalid.  Instantiation always
succeeds. -/
def engFix : Engine :=
  { compile := fun bs =>
      if bs = [1] then some modTrap
      else if bs = [2] then some modNoEntry
      else if bs = [3] then some modOk
      else if bs = [4] then some modStarter
      else if bs = [5] then some modBadNs
      else if bs = [6] then some modGoodImports
      else none,
    instantiateOk := fun _ _ => true }

/-- An initialized provider holding the given bytes. -/
def provInit (bytes : List Nat) : WasmtimeEngineProvider :=
  { host := some host0, wasidata := none, modbytes := bytes }

/-! Theorems. -/

/-- C10: for every provider state and host handle, `init` returns `Ok`,
stores exactly the handle (leaving the other fields unchanged), and the
provider reports itself initialized afterwards.  `init` consults neither
an engine nor the stored bytes, so no compilation, instantiation or
validation happens: the result is the same pure field update for every
`modbytes`. -/
theorem init_stores_host_and_succeeds (p : WasmtimeEngineProvider) (h : ModuleState) :
    p.init h = (Except.ok (), ⟨some h, p.wasidata, p.modbytes⟩) ∧
    ((p.init h).2).initialized = true :=
  ⟨rfl, rfl⟩

/-- C2: if instantiation succeeds but the instance has no `__guest_call`
function export, `call` returns the typed missing-entry-point error and
never a sentinel `Ok` result. -/
theorem call_missing_entry_error (p : WasmtimeEngineProvider) (eng : Engine)
    (op msg : Int) (inst : Instance) (evs : List Event)
    (hinst : p.instantiate eng = (Except.ok inst, evs))
    (hno : inst.get_func WapcFunctions.GUEST_CALL = none) :
    (p.call eng op msg).1 =
      Except.error (RunError.err "Guest module did not export __guest_call function!") ∧
    ∀ n : Int, (p.call eng op msg).1 ≠ Except.ok n := by
  have hres : (p.call eng op msg).1 =
      Except.error (RunError.err "Guest module did not export __guest_call function!") := by
    simp only [WasmtimeEngineProvider.call, hinst, guest_call_fn, hno]
  refine ⟨hres, ?_⟩
  intro n hcontra
  rw [hres] at hcontra
  exact Except.noConfusion hcontra

/-- Witness for C2 at a concrete provider whose module has no exports. -/
theorem call_missing_entry_error_witness :
    ((provInit [2]).call engFix 1 2).1 =
      Except.error (RunError.err "Guest module did not export __guest_call function!") ∧
    ((provInit [2]).call engFix 1 2).1 ≠ Except.ok 0 :=
  ⟨(call_missing_entry_error (provInit [2]) engFix 1 2 (Instance.mk modNoEntry)
      [Event.instanceAttempted] rfl rfl).1,
   (call_missing_entry_error (provInit [2]) engFix 1 2 (Instance.mk modNoEntry)
      [Event.instanceAttempted] rfl rfl).2 0⟩

/-- C1: if instantiation succeeds, the entry point is found, and invoking
it traps, then `call` returns `Ok 0` (the sentinel), no error is
propagated, and the failure is logged. -/
theorem call_trap_returns_sentinel_zero (p : WasmtimeEngineProvider) (eng : Engine)
    (op msg : Int) (inst : Instance) (evs : List Event) (f : WasmFunc) (e : String)
    (hinst : p.instantiate eng = (Except.ok inst, evs))
    (hf : guest_call_fn inst = Except.ok f)
    (htrap : f.call [WasmVal.i32 op, WasmVal.i32 msg] = Except.error e) :
    (p.call eng op msg).1 = Except.ok 0 ∧
    Event.logError ("Failure invoking guest module handler: " ++ e)
      ∈ (p.call eng op msg).2 := by
  simp only [WasmtimeEngineProvider.call, hinst, hf, call_excl, htrap]
  constructor
  · trivial
  · simp

/-- Witness for C1 at a concrete provider whose entry point traps. -/
theorem call_trap_returns_sentinel_zero_witness :
    ((provInit [1]).call engFix 1 2).1 = Except.ok 0 ∧
    Event.logError ("Failure invoking guest module handler: " ++ "wasm trap: unreachable")
      ∈ ((provInit [1]).call engFix 1 2).2 :=
  call_trap_returns_sentinel_zero (provInit [1]) engFix 1 2 (Instance.mk modTrap)
    [Event.instanceAttempted] trapFunc "wasm trap: unreachable" rfl rfl rfl

/-- C3: a hot swap returns `Ok`, changes only `modbytes` (to exactly the
new buffer) while leaving the host handle and the wasi data unchanged,
and any instance the next instantiation produces is built from the module
the engine compiles out of the new buffer. -/
theorem replace_swaps_only_bytes (p : WasmtimeEngineProvider) (buf : List Nat) :
    (p.replace buf).1 = Except.ok () ∧
    (p.replace buf).2.1.host = p.host ∧
    (p.replace buf).2.1.wasidata = p.wasidata ∧
    (p.replace buf).2.1.modbytes = buf ∧
    (∀ eng m inst evs, eng.compile buf = some m →
      (p.replace buf).2.1.instantiate eng = (Except.ok inst, evs) →
      inst.module = m) := by
  refine ⟨rfl, rfl, rfl, rfl, ?_⟩
  intro eng m inst evs hm hinst
  unfold WasmtimeEngineProvider.instantiate at hinst
  cases hh : p.host with
  | none =>
    simp only [WasmtimeEngineProvider.replace, hh] at hinst
    simp at hinst
  | some host =>
    simp only [WasmtimeEngineProvider.replace, hh, hm] at hinst
    rcases har : arrange_imports m host (Store.mk 0) with e | imports
    · simp only [har] at hinst
      simp at hinst
    · simp only [har] at hinst
      cases hio : eng.instantiateOk m imports with
      | false =>
        simp only [hio] at hinst
        simp at hinst
      | true =>
        simp only [hio, if_true] at hinst
        rcases hb : bootstrap (Instance.mk m) with ⟨r, evs2⟩
        simp only [hb] at hinst
        cases r with
        | error e =>
          simp at hinst
        | ok u =>
          simp only [Prod.mk.injEq, Except.ok.injEq] at hinst
          obtain ⟨h1, h2⟩ := hinst
          rw [← h1]

/-- Witness for C3: swapping a provider holding the bytes of `modOk` to
the bytes of `modStarter` and instantiating yields an instance of
`modStarter`. -/
theorem replace_swaps_only_bytes_witness :
    ((provInit [3]).replace [4]).1 = Except.ok () ∧
    ((provInit [3]).replace [4]).2.1.host = (provInit [3]).host ∧
    ((provInit [3]).replace [4]).2.1.wasidata = (provInit [3]).wasidata ∧
    ((provInit [3]).replace [4]).2.1.modbytes = [4] ∧
    (Instance.mk modStarter).module = modStarter :=
  ⟨(replace_swaps_only_bytes (provInit [3]) [4]).1,
   (replace_swaps_only_bytes (provInit [3]) [4]).2.1,
   (replace_swaps_only_bytes (provInit [3]) [4]).2.2.1,
   (replace_swaps_only_bytes (provInit [3]) [4]).2.2.2.1,
   (replace_swaps_only_bytes (provInit [3]) [4]).2.2.2.2 engFix modStarter
     (Instance.mk modStarter)
     [Event.instanceAttempted, Event.starterInvoked "wapc_init"] rfl rfl⟩


/-- Helper: each of the nine bridging names resolves to a binding. -/
theorem callback_ok_of_mem (name : String) (h : ModuleState) (st : Store)
    (hmem : name ∈ BRIDGE_NAMES) :
    ∃ ext, callback_for_import name h st = Except.ok ext := by
  simp only [BRIDGE_NAMES, List.mem_cons, List.not_mem_nil, or_false] at hmem
  rcases hmem with rfl | rfl | rfl | rfl | rfl | rfl | rfl | rfl | rfl <;> exact ⟨_, rfl⟩

/-- Helper: a name outside the nine bridging names resolves to the
unreachable-code panic. -/
theorem callback_unknown_panics (name : String) (h : ModuleState) (st : Store)
    (hmem : name ∉ BRIDGE_NAMES) :
    callback_for_import name h st =
      Except.error (RunError.panic "internal error: entered unreachable code") := by
  simp only [BRIDGE_NAMES, List.mem_cons, List.not_mem_nil, or_false, not_or] at hmem
  obtain ⟨h1, h2, h3, h4, h5, h6, h7, h8, h9⟩ := hmem
  unfold callback_for_import
  rw [if_neg h1, if_neg h2, if_neg h3, if_neg h4, if_neg h5, if_neg h6, if_neg h7,
    if_neg h8, if_neg h9]

/-- Helper: `callback_for_import` either resolves to a binding or panics
with the unreachable-code message. -/
theorem callback_for_import_cases (name : String) (h : ModuleState) (st : Store) :
    (∃ ext, callback_for_import name h st = Except.ok ext) ∨
    callback_for_import name h st =
      Except.error (RunError.panic "internal error: entered unreachable code") := by
  by_cases hm : name ∈ BRIDGE_NAMES
  · exact Or.inl (callback_ok_of_mem name h st hm)
  · exact Or.inr (callback_unknown_panics name h st hm)

/-- Helper: a function import under a foreign namespace anywhere in the
enumerated import list makes the binder diverge with a panic. -/
theorem arrange_imports_list_panics_of_bad_ns (host : ModuleState) (st : Store) :
    ∀ l : List ImportDecl,
      (∃ imp ∈ l, imp.ty = ExternType.func ∧ imp.module ≠ HOST_NAMESPACE) →
      ∃ msg, arrange_imports_list host st l = Except.error (RunError.panic msg) := by
  intro l
  induction l with
  | nil =>
    rintro ⟨imp, hmem, _⟩
    exact absurd hmem (List.not_mem_nil imp)
  | cons a rest ih =>
    rintro ⟨imp, hmem, hbad⟩
    rcases List.mem_cons.mp hmem with heq | hmem'
    · subst heq
      obtain ⟨hty, hns⟩ := hbad
      refine ⟨"import module was not found: " ++ imp.module, ?_⟩
      simp only [arrange_imports_list, hty, if_neg hns]
    · rcases hat : a.ty with _ | _ | _ | _
      case func =>
        by_cases han : a.module = HOST_NAMESPACE
        · obtain ⟨msg, hmsg⟩ := ih ⟨imp, hmem', hbad⟩
          rcases callback_for_import_cases a.name host st with ⟨ext, hcb⟩ | hcb
          · refine ⟨msg, ?_⟩
            simp only [arrange_imports_list, hat, if_pos han, hcb, hmsg]
          · refine ⟨"internal error: entered unreachable code", ?_⟩
            simp only [arrange_imports_list, hat, if_pos han, hcb]
        · refine ⟨"import module was not found: " ++ a.module, ?_⟩
          simp only [arrange_imports_list, hat, if_neg han]
      case global => simpa only [arrange_imports_list, hat] using ih ⟨imp, hmem', hbad⟩
      case memory => simpa only [arrange_imports_list, hat] using ih ⟨imp, hmem', hbad⟩
      case table => simpa only [arrange_imports_list, hat] using ih ⟨imp, hmem', hbad⟩

/-- C4: a module declaring a function import under a namespace other than
the host namespace makes the binder diverge with a panic (for every host
handle and store), and instantiating such a module fails with a panic
while the event trace stays empty: engine instantiation is never
attempted and no starter runs. -/
theorem bad_namespace_fails_before_instantiation
    (p : WasmtimeEngineProvider) (eng : Engine) (m : WasmModule) (imp : ImportDecl)
    (hm : eng.compile p.modbytes = some m)
    (hmem : imp ∈ m.imports) (hty : imp.ty = ExternType.func)
    (hns : imp.module ≠ HOST_NAMESPACE) :
    (∀ host st, ∃ msg, arrange_imports m host st = Except.error (RunError.panic msg)) ∧
    (∃ msg, (p.instantiate eng).1 = Except.error (RunError.panic msg)) ∧
    (p.instantiate eng).2 = [] := by
  have harr : ∀ host st, ∃ msg,
      arrange_imports m host st = Except.error (RunError.panic msg) := by
    intro host st
    exact arrange_imports_list_panics_of_bad_ns host st m.imports ⟨imp, hmem, hty, hns⟩
  refine ⟨harr, ?_⟩
  cases hh : p.host with
  | none =>
    unfold WasmtimeEngineProvider.instantiate
    rw [hh]
    exact ⟨⟨"called Option::unwrap on a None value", rfl⟩, rfl⟩
  | some host =>
    obtain ⟨msg, hmsg⟩ := harr host (Store.mk 0)
    unfold WasmtimeEngineProvider.instantiate
    rw [hh]
    simp only [hm, hmsg]
    exact ⟨⟨msg, rfl⟩, trivial⟩

/-- Witness for C4 at a module importing fd_write from a wasi namespace. -/
theorem bad_namespace_witness :
    ((provInit [5]).instantiate engFix).1 =
      Except.error (RunError.panic
        ("import module was not found: " ++ "wasi_snapshot_preview1")) ∧
    ((provInit [5]).instantiate engFix).2 = [] :=
  ⟨rfl,
   (bad_namespace_fails_before_instantiation (provInit [5]) engFix modBadNs badNsImport
      rfl (by decide) rfl (by decide)).2.2⟩

/-- C8: a non-function import anywhere in the enumerated import list is
skipped by the binder: removing it leaves the binder's outcome (bindings
and errors alike) unchanged, regardless of its namespace or name. -/
theorem non_func_imports_skipped (host : ModuleState) (st : Store)
    (l1 l2 : List ImportDecl) (imp : ImportDecl)
    (hty : imp.ty ≠ ExternType.func) :
    arrange_imports_list host st (l1 ++ imp :: l2) =
      arrange_imports_list host st (l1 ++ l2) := by
  induction l1 with
  | nil =>
    simp only [List.nil_append]
    rcases hat : imp.ty with _ | _ | _ | _
    · exact absurd hat hty
    all_goals simp only [arrange_imports_list, hat]
  | cons a rest ih =>
    simp only [List.cons_append, arrange_imports_list, List.append_eq]
    rw [ih]

/-- Witness for C8: a memory import under an arbitrary namespace is
dropped without affecting the binder's output. -/
theorem non_func_imports_skipped_witness :
    arrange_imports_list host0 (Store.mk 0)
      ([⟨HOST_NAMESPACE, WapcFunctions.HOST_CALL, ExternType.func⟩] ++
        ⟨"env", "memory", ExternType.memory⟩ :: []) =
    arrange_imports_list host0 (Store.mk 0)
      ([⟨HOST_NAMESPACE, WapcFunctions.HOST_CALL, ExternType.func⟩] ++ []) :=
  non_func_imports_skipped host0 (Store.mk 0)
    [⟨HOST_NAMESPACE, WapcFunctions.HOST_CALL, ExternType.func⟩] []
    ⟨"env", "memory", ExternType.memory⟩ (by decide)

/-- C9: a host-namespace function import whose name is not one of the
nine bridging names fails fast: name resolution panics with the
unreachable-code message instead of producing a binding, and the binder
run on such an import propagates that panic instead of silently binding
nothing. -/
theorem unknown_host_import_fails_fast (name : String) (host : ModuleState) (st : Store)
    (rest : List ImportDecl) (hunk : name ∉ BRIDGE_NAMES) :
    callback_for_import name host st =
      Except.error (RunError.panic "internal error: entered unreachable code") ∧
    arrange_imports_list host st (⟨HOST_NAMESPACE, name, ExternType.func⟩ :: rest) =
      Except.error (RunError.panic "internal error: entered unreachable code") := by
  have hcb := callback_unknown_panics name host st hunk
  refine ⟨hcb, ?_⟩
  simp [arrange_imports_list, hcb]

/-- Witness for C9 at a concrete unrecognised import name. -/
theorem unknown_host_import_fails_fast_witness :
    callback_for_import "not_a_bridge_fn" host0 (Store.mk 0) =
      Except.error (RunError.panic "internal error: entered unreachable code") ∧
    arrange_imports_list host0 (Store.mk 0)
      [⟨HOST_NAMESPACE, "not_a_bridge_fn", ExternType.func⟩] =
      Except.error (RunError.panic "internal error: entered unreachable code") :=
  unknown_host_import_fails_fast "not_a_bridge_fn" host0 (Store.mk 0) [] (by decide)

/-- Helper: with only recognised host-namespace function imports, the
binder succeeds and binds, in enumeration order, exactly the function
imports. -/
theorem arrange_imports_list_good (host : ModuleState) (st : Store) :
    ∀ l : List ImportDecl,
      (∀ imp ∈ l, imp.ty = ExternType.func →
        imp.module = HOST_NAMESPACE ∧ imp.name ∈ BRIDGE_NAMES) →
      ∃ exts, arrange_imports_list host st l = Except.ok exts ∧
        List.Forall₂ (fun imp ext =>
            callback_for_import imp.name host st = Except.ok ext)
          (l.filter fun i => i.ty == ExternType.func) exts := by
  intro l
  induction l with
  | nil => exact fun _ => ⟨[], rfl, by simp⟩
  | cons a rest ih =>
    intro hgood
    obtain ⟨exts, hrest, hfa⟩ :=
      ih fun imp hm ht => hgood imp (List.mem_cons_of_mem a hm) ht
    rcases hat : a.ty with _ | _ | _ | _
    case func =>
      obtain ⟨hns, hname⟩ := hgood a (List.mem_cons_self a rest) hat
      obtain ⟨ext, hext⟩ := callback_ok_of_mem a.name host st hname
      refine ⟨ext :: exts, ?_, ?_⟩
      · simp only [arrange_imports_list, hat, if_pos hns, hext, hrest]
      · rw [List.filter_cons_of_pos (by simp [hat])]
        exact List.Forall₂.cons hext hfa
    case global =>
      refine ⟨exts, by simp only [arrange_imports_list, hat, hrest], ?_⟩
      rw [List.filter_cons_of_neg (by simp [hat])]
      exact hfa
    case memory =>
      refine ⟨exts, by simp only [arrange_imports_list, hat, hrest], ?_⟩
      rw [List.filter_cons_of_neg (by simp [hat])]
      exact hfa
    case table =>
      refine ⟨exts, by simp only [arrange_imports_list, hat, hrest], ?_⟩
      rw [List.filter_cons_of_neg (by simp [hat])]
      exact hfa

/-- C6: for a module declaring only recognised host-namespace function
imports, the binder succeeds with a binding list whose length equals the
module's function-import count, and the bindings correspond one-to-one —
positionally, in the order the engine enumerates the imports — to the
function imports through `callback_for_import`. -/
theorem arrange_imports_length_and_order (m : WasmModule) (host : ModuleState)
    (st : Store)
    (hgood : ∀ imp ∈ m.imports, imp.ty = ExternType.func →
      imp.module = HOST_NAMESPACE ∧ imp.name ∈ BRIDGE_NAMES) :
    ∃ exts, arrange_imports m host st = Except.ok exts ∧
      exts.length = (m.imports.filter fun i => i.ty == ExternType.func).length ∧
      List.Forall₂ (fun imp ext =>
          callback_for_import imp.name host st = Except.ok ext)
        (m.imports.filter fun i => i.ty == ExternType.func) exts := by
  obtain ⟨exts, h1, h2⟩ := arrange_imports_list_good host st m.imports hgood
  exact ⟨exts, h1, h2.length_eq.symm, h2⟩

/-- Witness for C6 at a module with two host-namespace function imports
and one memory import: two bindings, in import order. -/
theorem arrange_imports_length_and_order_witness :
    arrange_imports modGoodImports host0 (Store.mk 0) =
      Except.ok [Extern.hostFunc HostFuncRole.hostCall host0,
                 Extern.hostFunc HostFuncRole.guestRequest host0] ∧
    ([Extern.hostFunc HostFuncRole.hostCall host0,
      Extern.hostFunc HostFuncRole.guestRequest host0] : List Extern).length =
      (modGoodImports.imports.filter fun i => i.ty == ExternType.func).length := by
  obtain ⟨exts, h1, h2, h3⟩ :=
    arrange_imports_length_and_order modGoodImports host0 (Store.mk 0) (by decide)
  have hc : arrange_imports modGoodImports host0 (Store.mk 0) =
      Except.ok [Extern.hostFunc HostFuncRole.hostCall host0,
                 Extern.hostFunc HostFuncRole.guestRequest host0] := rfl
  refine ⟨hc, ?_⟩
  have h4 := h1.symm.trans hc
  injection h4 with h4
  rw [← h4]
  exact h2

/-- Helper: the bootstrap loop, when every present starter is a function
whose nullary call succeeds, returns `Ok` and its trace is exactly the
in-order list of present starter names. -/
theorem run_starters_trace (inst : Instance) :
    ∀ l : List String,
      (∀ s ∈ l, ∀ ed, inst.get_export s = some ed →
        ∃ f vs, ed = ExportDef.func f ∧ f.call [] = Except.ok vs) →
      run_starters inst l =
        (Except.ok (),
          (l.filter fun s => (inst.get_export s).isSome).map Event.starterInvoked) := by
  intro l
  induction l with
  | nil => exact fun _ => rfl
  | cons s rest ih =>
    intro hgood
    have hrest := ih fun x hx => hgood x (List.mem_cons_of_mem s hx)
    rcases he : inst.get_export s with _ | ed
    · rw [List.filter_cons_of_neg (by simp [he])]
      simp only [run_starters, he, hrest]
    · obtain ⟨f, vs, hed, hcall⟩ := hgood s (List.mem_cons_self s rest) ed he
      subst hed
      rw [List.filter_cons_of_pos (by simp [he])]
      simp only [run_starters, he, hcall, hrest, List.map_cons]

/-- Helper: the trace of the `call!` expansion never contains a starter
invocation. -/
theorem call_excl_no_starter_events (f : WasmFunc) (p1 p2 : Int) (s : String) :
    Event.starterInvoked s ∉ (call_excl f p1 p2).2 := by
  rcases hc : f.call [WasmVal.i32 p1, WasmVal.i32 p2] with e | results
  · simp [call_excl, hc]
  · rcases results with _ | ⟨v, rest⟩
    · simp [call_excl, hc]
    · rcases v with n | _
      · simp [call_excl, hc]
      · simp [call_excl, hc]

/-- C7: the fixed starter-name list has no duplicates; when every starter
export the module provides is a function whose nullary call succeeds, the
bootstrap returns `Ok` with exactly the present starters invoked, each
once, in the fixed `REQUIRED_STARTS` order; in a call, the whole
instantiation trace (which contains every starter invocation) precedes
the entry-point invocation and no starter runs afterwards; and a module
providing no starter export at all still bootstraps and instantiates
successfully. -/
theorem starters_in_order_before_entry (inst : Instance) (p : WasmtimeEngineProvider)
    (eng : Engine) (op msg : Int) :
    WapcFunctions.REQUIRED_STARTS.Nodup ∧
    ((∀ s ∈ WapcFunctions.REQUIRED_STARTS, ∀ ed, inst.get_export s = some ed →
        ∃ f vs, ed = ExportDef.func f ∧ f.call [] = Except.ok vs) →
      bootstrap inst = (Except.ok (),
        (WapcFunctions.REQUIRED_STARTS.filter
          fun s => (inst.get_export s).isSome).map Event.starterInvoked)) ∧
    (∀ evs f, p.instantiate eng = (Except.ok inst, evs) →
      guest_call_fn inst = Except.ok f →
      (p.call eng op msg).2 = evs ++ Event.guestCallInvoked :: (call_excl f op msg).2 ∧
      ∀ s, Event.starterInvoked s ∉
        Event.guestCallInvoked :: (call_excl f op msg).2) ∧
    ((∀ s ∈ WapcFunctions.REQUIRED_STARTS, inst.get_export s = none) →
      bootstrap inst = (Except.ok (), []) ∧
      ∀ m host imports, p.host = some host → eng.compile p.modbytes = some m →
        arrange_imports m host (Store.mk 0) = Except.ok imports →
        eng.instantiateOk m imports = true → inst = Instance.mk m →
        p.instantiate eng = (Except.ok inst, [Event.instanceAttempted])) := by
  refine ⟨by decide, ?_, ?_, ?_⟩
  · intro hgood
    exact run_starters_trace inst WapcFunctions.REQUIRED_STARTS hgood
  · intro evs f hinst hf
    constructor
    · unfold WasmtimeEngineProvider.call
      rw [hinst]
      simp only [hf]
    · intro s
      simp only [List.mem_cons, not_or]
      exact ⟨fun h => Event.noConfusion h, call_excl_no_starter_events f op msg s⟩
  · intro hnone
    have hboot : bootstrap inst = (Except.ok (), []) := by
      have h1 := run_starters_trace inst WapcFunctions.REQUIRED_STARTS
        (fun s hs ed hed => absurd ((hnone s hs).symm.trans hed)
          (fun h => Option.noConfusion h))
      have h2 : (WapcFunctions.REQUIRED_STARTS.filter
          fun s => (inst.get_export s).isSome) = [] := by
        rw [List.filter_eq_nil_iff]
        intro s hs
        simp [hnone s hs]
      rw [h2] at h1
      exact h1
    refine ⟨hboot, ?_⟩
    intro m host imports hh hm har hok hinstm
    unfold WasmtimeEngineProvider.instantiate
    rw [hh]
    simp only [hm, har, hok, if_true]
    rw [← hinstm, hboot]

/-- Witness for C7: a module with one starter runs it exactly once before
the entry point; a module with no exports still instantiates. -/
theorem starters_in_order_before_entry_witness :
    bootstrap (Instance.mk modStarter) =
      (Except.ok (), [Event.starterInvoked "wapc_init"]) ∧
    ((provInit [4]).call engFix 1 2).2 =
      [Event.instanceAttempted, Event.starterInvoked "wapc_init"] ++
        Event.guestCallInvoked :: (call_excl okFunc7 1 2).2 ∧
    (provInit [2]).instantiate engFix =
      (Except.ok (Instance.mk modNoEntry), [Event.instanceAttempted]) := by
  have hgood : ∀ s ∈ WapcFunctions.REQUIRED_STARTS, ∀ ed,
      (Instance.mk modStarter).get_export s = some ed →
      ∃ f vs, ed = ExportDef.func f ∧ f.call [] = Except.ok vs := by
    intro s hs ed hed
    simp only [WapcFunctions.REQUIRED_STARTS, List.mem_cons, List.not_mem_nil,
      or_false] at hs
    rcases hs with rfl | rfl | rfl
    · rw [show (Instance.mk modStarter).get_export "_start" = none from rfl] at hed
      exact Option.noConfusion hed
    · rw [show (Instance.mk modStarter).get_export "wapc_init" =
          some (ExportDef.func okFunc) from rfl] at hed
      injection hed with h
      subst h
      exact ⟨okFunc, [WasmVal.i32 42], rfl, rfl⟩
    · rw [show (Instance.mk modStarter).get_export "wascc_init" = none from rfl] at hed
      exact Option.noConfusion hed
  have hnone : ∀ s ∈ WapcFunctions.REQUIRED_STARTS,
      (Instance.mk modNoEntry).get_export s = none := by
    intro s hs
    simp only [WapcFunctions.REQUIRED_STARTS, List.mem_cons, List.not_mem_nil,
      or_false] at hs
    rcases hs with rfl | rfl | rfl <;> rfl
  refine ⟨?_, ?_, ?_⟩
  · exact (starters_in_order_before_entry (Instance.mk modStarter) (provInit [4])
      engFix 1 2).2.1 hgood
  · exact ((starters_in_order_before_entry (Instance.mk modStarter) (provInit [4])
      engFix 1 2).2.2.1
      [Event.instanceAttempted, Event.starterInvoked "wapc_init"] okFunc7 rfl rfl).1
  · exact ((starters_in_order_before_entry (Instance.mk modNoEntry) (provInit [2])
      engFix 1 2).2.2.2 hnone).2 modNoEntry host0 [] rfl rfl rfl rfl rfl

/-- Counterexample for C5: with the concrete engine, the byte buffer
`[99]` is not a valid module.  The first instantiation of a provider
holding it fails with a panic (the `unwrap` on `Module::new`), not a
typed error result; and a hot swap to those invalid bytes does not
surface any failure: it returns `Ok` and replaces the stored bytecode. -/
theorem compile_failure_counterexample :
    ((provInit [99]).instantiate engFix).1 =
      Except.error (RunError.panic "called Result::unwrap on an Err value") ∧
    ((provInit [3]).replace [99]).1 = Except.ok () ∧
    ((provInit [3]).replace [99]).2.1.modbytes = [99] :=
  ⟨rfl, rfl, rfl⟩

/-- C5 (amended): for a byte buffer the engine cannot compile, the
instantiation panics on the compilation `unwrap` instead of returning a
typed error; a hot swap never validates the new buffer — it returns `Ok`
unconditionally and stores the bytes — and the compilation failure then
surfaces as the same panic on the next call after the swap. -/
theorem compile_failure_panics_and_swap_unchecked (p : WasmtimeEngineProvider)
    (eng : Engine) (buf : List Nat) (host : ModuleState)
    (hhost : p.host = some host) (hbad : eng.compile p.modbytes = none) :
    (p.instantiate eng).1 =
      Except.error (RunError.panic "called Result::unwrap on an Err value") ∧
    (p.replace buf).1 = Except.ok () ∧
    (p.replace buf).2.1.modbytes = buf ∧
    (eng.compile buf = none →
      ((p.replace buf).2.1.call eng 0 0).1 =
        Except.error (RunError.panic "called Result::unwrap on an Err value")) := by
  have hinst : (p.instantiate eng).1 =
      Except.error (RunError.panic "called Result::unwrap on an Err value") := by
    unfold WasmtimeEngineProvider.instantiate
    rw [hhost]
    simp only [hbad]
  refine ⟨hinst, rfl, rfl, ?_⟩
  intro hbad2
  have hinst2 : ((p.replace buf).2.1.instantiate eng) =
      (Except.error (RunError.panic "called Result::unwrap on an Err value"), []) := by
    unfold WasmtimeEngineProvider.instantiate
    simp only [WasmtimeEngineProvider.replace, hhost, hbad2]
  unfold WasmtimeEngineProvider.call
  rw [hinst2]

/-- Witness for the amended C5 at concrete invalid byte buffers. -/
theorem compile_failure_panics_and_swap_unchecked_witness :
    ((provInit [99]).instantiate engFix).1 =
      Except.error (RunError.panic "called Result::unwrap on an Err value") ∧
    ((provInit [99]).replace [100]).1 = Except.ok () ∧
    ((provInit [99]).replace [100]).2.1.modbytes = [100] ∧
    (((provInit [99]).replace [100]).2.1.call engFix 0 0).1 =
      Except.error (RunError.panic "called Result::unwrap on an Err value") := by
  obtain ⟨h1, h2, h3, h4⟩ :=
    compile_failure_panics_and_swap_unchecked (provInit [99]) engFix [100] host0 rfl rfl
  exact ⟨h1, h2, h3, h4 rfl⟩
